import Mathlib

/-!
Shallow embedding of `verus_client.py` (pyVerusClient): a thin JSON-RPC
client for the Verus daemon.  Decoded JSON values are modelled by `Json`,
Python dictionaries by association lists in insertion order, the dynamic
attribute dictionary of `VerusResponseData` by an association list with
Python dict-assignment semantics (`setAttr`), exceptions by `Except`.
-/

set_option autoImplicit false

namespace PyVerus

/-- Decoded JSON values as produced by `response.json()` / `json` decoding.
Python decodes JSON objects to `dict` (insertion-ordered, unique keys),
arrays to `list`, and `null` to `None`. -/
inductive Json where
  | null
  | bool (b : Bool)
  | num (n : Int)
  | str (s : String)
  | arr (elems : List Json)
  | obj (entries : List (String × Json))

/-- First-match lookup in an association list: the behaviour of
`d[k]` / `d.get(k)` on a Python dict represented in insertion order
(keys are unique in a real dict, so first match is the match). -/
def alistGet (d : List (String × Json)) (k : String) : Option Json :=
  match d with
  | [] => none
  | (k1, v) :: rest => if k1 = k then some v else alistGet rest k

/-- Python dict assignment `d[k] = v` / attribute assignment on `__dict__`:
replace the value in place if the key exists, otherwise append. -/
def setAttr (d : List (String × Json)) (k : String) (v : Json) :
    List (String × Json) :=
  match d with
  | [] => [(k, v)]
  | (k1, v1) :: rest =>
    if k1 = k then (k, v) :: rest else (k1, v1) :: setAttr rest k v

/-- `response.get(k)` where `response` is the decoded JSON: `some` when the
value is a dict containing `k`, `none` otherwise. -/
def Json.objGet (j : Json) (k : String) : Option Json :=
  match j with
  | .obj entries => alistGet entries k
  | _ => none

/-- `isinstance(res, dict)`. -/
def Json.isObj : Json → Bool
  | .obj _ => true
  | _ => false

/-- Python `str.lower()` on the character sequence (ASCII case folding,
which covers the recognized network names). -/
def pyLower (s : String) : String :=
  String.mk (s.data.map Char.toLower)

/-- Python exceptions raised by the client itself. -/
inductive PyError where
  | valueError (msg : String)
  | nameError (name : String)
  | typeError (msg : String)

/-- The exception raised by `_rpc_request` on a non-null `error` field:
`raise Exception(f"RPC Error: {result['error']}")`.  It is built from the
daemon-supplied error value, which it carries unmodified. -/
structure RpcError where
  payload : Json

/-- `VerusResponseData`: a record whose attributes live in `__dict__`,
modelled as the insertion-ordered association list `attrs`. -/
structure VerusResponseData where
  attrs : List (String × Json)

/-- The call `VerusResponseData(**entries)` binding
`__init__(self, **entries)`: if `entries` contains the key "self", the
keyword collides with the positionally bound `self` parameter and the call
raises TypeError before the body runs.  Otherwise
`self.__dict__.update(entries)` on a fresh empty `__dict__` yields
`entries`, then `self.response = None` assigns key `"response"`. -/
def VerusResponseData.init (entries : List (String × Json)) :
    Except PyError VerusResponseData :=
  if "self" ∈ entries.map Prod.fst then
    .error (.typeError "__init__() got multiple values for argument 'self'")
  else
    .ok ⟨setAttr entries "response" Json.null⟩

/-- A normalized result: either a `VerusResponseData` record (dict case)
or the raw JSON value passed through. -/
inductive PyValue where
  | data (d : VerusResponseData)
  | raw (j : Json)

/-- The normalization at the heart of `VerusClient._handle_response`,
applied to the extracted `result` value `res`:
if `isinstance(res, dict)` then `data = VerusResponseData(**res);
data.response = res; return data` else `return res`.  The
`VerusResponseData(**res)` call raises TypeError when `res` contains the
key "self", and that exception propagates. -/
def normalizeResult (res : Json) : Except PyError PyValue :=
  match res with
  | .obj entries =>
    match VerusResponseData.init entries with
    | .error e => .error e
    | .ok data => .ok (.data ⟨setAttr data.attrs "response" res⟩)
  | _ => .ok (.raw res)

/-- `VerusClient._handle_response(self, response)`:
`res = response.get("result")` (Python `None`, i.e. JSON null, when the
key is absent), then normalize `res`. -/
def handle_response (response : Json) : Except PyError PyValue :=
  normalizeResult ((response.objGet "result").getD Json.null)

/-- The state of a constructed `VerusClient`. -/
structure VerusClient where
  host : String
  network : String
  rpc_user : String
  rpc_password : String
  port : Nat
  native_currency : String
  url : String

/-- `VerusClient.__init__`: lower-cases the network name, resolves port and
native currency for `mainnet`/`testnet`, raises
`ValueError("Network must be 'mainnet' or 'testnet'")` otherwise, and fixes
`url = f"http://{self.host}:{self.port}/"`.  A raising `__init__` delivers
no instance, hence the `Except` result. -/
def VerusClient.init (host : String := "127.0.0.1")
    (network : String := "mainnet") (rpc_user : String := "username")
    (rpc_password : String := "password") : Except PyError VerusClient :=
  if pyLower network = "mainnet" then
    .ok { host := host, network := pyLower network, rpc_user := rpc_user,
          rpc_password := rpc_password, port := 27486,
          native_currency := "vrsc",
          url := "http://" ++ host ++ ":" ++ toString (27486 : Nat) ++ "/" }
  else if pyLower network = "testnet" then
    .ok { host := host, network := pyLower network, rpc_user := rpc_user,
          rpc_password := rpc_password, port := 18843,
          native_currency := "vrsctest",
          url := "http://" ++ host ++ ":" ++ toString (18843 : Nat) ++ "/" }
  else
    .error (.valueError "Network must be 'mainnet' or 'testnet'")

/-- The single HTTP POST issued by `_rpc_request` via `requests.post`:
target URL, basic-auth credentials, headers, and the request body.  The
body is `json.dumps(payload)`; the serialized JSON object is modelled by
the `Json` value `body` itself. -/
structure HttpRequest where
  url : String
  auth_user : String
  auth_password : String
  body : Json
  headers : List (String × String)

/-- The `payload` dict literal built in `_rpc_request`, in source order:
`{"jsonrpc": "1.0", "id": "python-client", "method": method,
"params": params}`. -/
def rpc_request_payload (method : String) (params : List Json) : Json :=
  .obj [("jsonrpc", .str "1.0"), ("id", .str "python-client"),
        ("method", .str method), ("params", .arr params)]

/-- The `requests.post(self.url, auth=(self.rpc_user, self.rpc_password),
data=json.dumps(payload), headers={"content-type": "text/plain"})` call of
`_rpc_request`. -/
def VerusClient.rpc_request_send (c : VerusClient) (method : String)
    (params : List Json) : HttpRequest :=
  { url := c.url, auth_user := c.rpc_user, auth_password := c.rpc_password,
    body := rpc_request_payload method params,
    headers := [("content-type", "text/plain")] }

/-- The response handling of `_rpc_request` after `result = response.json()`:
`if result.get("error") is not None: raise Exception(f"RPC Error: ...")`
(JSON null decodes to Python `None`, so a null `error` does not raise);
otherwise `return result` (the whole decoded wire object). -/
def rpc_request_handle (wire : Json) : Except RpcError Json :=
  match wire.objGet "error" with
  | some .null => .ok wire
  | some e => .error ⟨e⟩
  | none => .ok wire

/-- A failure of a catalogue call: either the `RpcError` raised by
`_rpc_request` on a non-null error field, or a Python exception
propagating out of `_handle_response` (TypeError from
`VerusResponseData(**res)`). -/
inductive CallError where
  | rpc (e : RpcError)
  | py (e : PyError)

/-- One catalogue call: `response = self._rpc_request(method, params);
return self._handle_response(response)`.  `wire` is the decoded JSON the
daemon answers with; the result pairs the HTTP request issued with the
outcome (a `CallError`, or the normalized result). -/
def VerusClient.rpcCall (c : VerusClient) (method : String)
    (params : List Json) (wire : Json) :
    HttpRequest × Except CallError PyValue :=
  (c.rpc_request_send method params,
   match rpc_request_handle wire with
   | .error e => .error (.rpc e)
   | .ok response =>
     match handle_response response with
     | .error e => .error (.py e)
     | .ok v => .ok v)

/-- `getbestblockhash(self)`:
`self._rpc_request("getbestblockhash", [])`. -/
def VerusClient.getbestblockhash (c : VerusClient) (wire : Json) :
    HttpRequest × Except CallError PyValue :=
  c.rpcCall "getbestblockhash" [] wire

/-- `getblock(self, hash_or_height, verbosity=1)`:
`self._rpc_request("getblock", [hash_or_height, verbosity])`. -/
def VerusClient.getblock (c : VerusClient) (wire : Json)
    (hash_or_height : Json) (verbosity : Json := .num 1) :
    HttpRequest × Except CallError PyValue :=
  c.rpcCall "getblock" [hash_or_height, verbosity] wire

/-- `getimports(self, currency, heightstart=None, heightend=None)`: builds
`params = [currency, heightstart or "", (heightend)?]` but then issues
`self._rpc_request("getimports", [currency])`, discarding the built list. -/
def VerusClient.getimports (c : VerusClient) (wire : Json) (currency : Json)
    (heightstart : Option Json := none) (heightend : Option Json := none) :
    HttpRequest × Except CallError PyValue :=
  let _params := [currency, heightstart.getD (.str "")] ++
    (match heightend with | some h => [h] | none => [])
  c.rpcCall "getimports" [currency] wire

/-- `getexports(self, curency, heightstart=None, heightend=None)`: the
parameter is spelled `curency`, but the body begins `params = [currency]`,
a reference to an undefined name, so every call raises
`NameError: name 'currency' is not defined` before any request is sent.
(Had it not raised, the request would carry `params=[]`.) -/
def VerusClient.getexports (_c : VerusClient) (_wire : Json)
    (_curency : Json) (_heightstart : Option Json := none)
    (_heightend : Option Json := none) :
    Except PyError (HttpRequest × Except CallError PyValue) :=
  .error (.nameError "currency")

/-- A concrete constructed client (the state produced by `VerusClient()`
at its Python default arguments), used to instantiate universally
quantified statements at a specific client. -/
def defaultClient : VerusClient :=
  { host := "127.0.0.1", network := "mainnet", rpc_user := "username",
    rpc_password := "password", port := 27486, native_currency := "vrsc",
    url := "http://127.0.0.1:27486/" }

/-! ## Helper lemmas about association lists -/

theorem alistGet_append (d e : List (String × Json)) (k : String) :
    alistGet (d ++ e) k =
      match alistGet d k with
      | some v => some v
      | none => alistGet e k := by
  induction d with
  | nil => simp [alistGet]
  | cons hd tl ih =>
    obtain ⟨k1, v1⟩ := hd
    by_cases h : k1 = k <;> simp [alistGet, h, ih]

theorem setAttr_of_notMem (d : List (String × Json)) (k : String) (v : Json)
    (h : k ∉ d.map Prod.fst) : setAttr d k v = d ++ [(k, v)] := by
  induction d with
  | nil => simp [setAttr]
  | cons hd tl ih =>
    obtain ⟨k1, v1⟩ := hd
    simp only [List.map_cons, List.mem_cons] at h
    push_neg at h
    simp [setAttr, Ne.symm h.1, ih h.2]

theorem setAttr_append_single (d : List (String × Json)) (k : String)
    (v w : Json) (h : k ∉ d.map Prod.fst) :
    setAttr (d ++ [(k, v)]) k w = d ++ [(k, w)] := by
  induction d with
  | nil => simp [setAttr]
  | cons hd tl ih =>
    obtain ⟨k1, v1⟩ := hd
    simp only [List.map_cons, List.mem_cons] at h
    push_neg at h
    simp [setAttr, Ne.symm h.1, ih h.2]

theorem alistGet_setAttr_self (d : List (String × Json)) (k : String)
    (v : Json) : alistGet (setAttr d k v) k = some v := by
  induction d with
  | nil => simp [setAttr, alistGet]
  | cons hd tl ih =>
    obtain ⟨k1, v1⟩ := hd
    by_cases h : k1 = k <;> simp [setAttr, alistGet, h, ih]

theorem sizeOf_alistGet (d : List (String × Json)) (k : String) (v : Json)
    (h : alistGet d k = some v) : sizeOf v < sizeOf d := by
  induction d with
  | nil => simp [alistGet] at h
  | cons hd tl ih =>
    obtain ⟨k1, v1⟩ := hd
    by_cases hk : k1 = k
    · simp only [alistGet, hk, if_pos] at h
      obtain rfl : v1 = v := Option.some.inj h
      simp
      omega
    · simp only [alistGet, hk, if_false] at h
      have := ih h
      simp
      omega

/-! ## Claims C1-C5 -/

/-- Claim C1, counterexample: the claim as stated fails when the result
object itself contains the key "response".  For result {"response": 1} the
produced record's attribute list is exactly
[("response", {"response": 1})]: the attribute "response" does not hold the
object's value 1, and there is no additional field beyond the object's single
key. -/
theorem C1_counterexample :
    ∃ d, normalizeResult (.obj [("response", Json.num 1)]) =
        .ok (.data d) ∧
      d.attrs = [("response", Json.obj [("response", Json.num 1)])] ∧
      alistGet d.attrs "response" ≠ some (Json.num 1) := by
  refine ⟨⟨[("response", Json.obj [("response", Json.num 1)])]⟩, rfl, rfl, ?_⟩
  intro h
  have h2 : some (Json.obj [("response", Json.num 1)]) =
      some (Json.num 1) := h
  exact Json.noConfusion (Option.some.inj h2)

/-- Claim C1, amended: for every JSON object result whose keys include
neither "response" nor "self", normalization produces a record whose
attributes are exactly the object's keys with their values, plus one
additional attribute "response" holding the original mapping unmodified.
(When the object contains a "response" key, that attribute is overwritten
with the mapping instead; when it contains a "self" key, the
`VerusResponseData(**res)` call raises TypeError and no record is
produced.) -/
theorem C1_normalization_obj (kvs : List (String × Json))
    (h : "response" ∉ kvs.map Prod.fst)
    (hself : "self" ∉ kvs.map Prod.fst) :
    ∃ d, normalizeResult (.obj kvs) = .ok (.data d) ∧
      d.attrs = kvs ++ [("response", Json.obj kvs)] ∧
      (∀ k v, alistGet kvs k = some v → alistGet d.attrs k = some v) ∧
      alistGet d.attrs "response" = some (Json.obj kvs) := by
  have hattrs : setAttr (setAttr kvs "response" Json.null) "response"
      (Json.obj kvs) = kvs ++ [("response", Json.obj kvs)] := by
    rw [setAttr_of_notMem kvs _ _ h, setAttr_append_single kvs _ _ _ h]
  refine ⟨⟨setAttr (setAttr kvs "response" Json.null) "response"
    (Json.obj kvs)⟩, ?_, hattrs, ?_, ?_⟩
  · simp [normalizeResult, VerusResponseData.init, hself]
  · intro k v hv
    show alistGet (setAttr (setAttr kvs "response" Json.null) "response"
      (Json.obj kvs)) k = some v
    rw [hattrs, alistGet_append, hv]
  · exact alistGet_setAttr_self _ _ _

/-- Claim C1, witness: the claim's concrete example, result
{"a": 1, "b": "x"}: attribute a = 1, attribute b = "x", and the "response"
attribute equals the original mapping. -/
theorem C1_witness :
    ("response" ∉
      ([("a", Json.num 1), ("b", Json.str "x")].map Prod.fst)) ∧
    ("self" ∉
      ([("a", Json.num 1), ("b", Json.str "x")].map Prod.fst)) ∧
    (∃ d, normalizeResult (.obj [("a", Json.num 1), ("b", Json.str "x")]) =
        .ok (.data d) ∧
      d.attrs = [("a", Json.num 1), ("b", Json.str "x")] ++
        [("response", Json.obj [("a", Json.num 1), ("b", Json.str "x")])] ∧
      (∀ k v, alistGet [("a", Json.num 1), ("b", Json.str "x")] k = some v →
        alistGet d.attrs k = some v) ∧
      alistGet d.attrs "response" =
        some (Json.obj [("a", Json.num 1), ("b", Json.str "x")])) :=
  ⟨by decide, by decide, C1_normalization_obj _ (by decide) (by decide)⟩

/-- Claim C2, counterexample: the claim's null-error conjunct ("the
normalized result is returned") fails at wire
{"result": {"self": 1}, "error": null}: the error field is null, yet the
call returns no normalized result — `_handle_response` raises TypeError
from `VerusResponseData(**res)`. -/
theorem C2_counterexample :
    ((Json.obj [("result", Json.obj [("self", Json.num 1)]),
        ("error", Json.null)]).objGet "error" = some Json.null) ∧
    ((defaultClient.rpcCall "getinfo" []
        (Json.obj [("result", Json.obj [("self", Json.num 1)]),
          ("error", Json.null)])).2 =
      .error (.py (.typeError
        "__init__() got multiple values for argument 'self'"))) :=
  ⟨rfl, rfl⟩

/-- Claim C2, amended: a decoded wire response with a non-null error field
makes the call fail with an RpcError carrying the daemon-supplied payload
unmodified, returning no normalized result; with a null (or absent) error
field no RpcError is raised, and the normalized result is returned
whenever normalization succeeds (normalization raises TypeError instead
when the result object contains the key "self"). -/
theorem C2_error_handling (c : VerusClient) (method : String)
    (params : List Json) (wire : Json) :
    (∀ e, wire.objGet "error" = some e → e ≠ Json.null →
        (c.rpcCall method params wire).2 = .error (.rpc ⟨e⟩)) ∧
    (wire.objGet "error" = some Json.null ∨ wire.objGet "error" = none →
        (∀ e2, (c.rpcCall method params wire).2 ≠ .error (.rpc e2)) ∧
        (∀ v, handle_response wire = .ok v →
          (c.rpcCall method params wire).2 = .ok v)) := by
  have h2 : wire.objGet "error" = some Json.null ∨
      wire.objGet "error" = none → rpc_request_handle wire = .ok wire := by
    rintro (h | h) <;> simp [rpc_request_handle, h]
  constructor
  · intro e he hne
    have h1 : rpc_request_handle wire = .error ⟨e⟩ := by
      cases e <;> simp_all [rpc_request_handle]
    simp [VerusClient.rpcCall, h1]
  · intro h
    constructor
    · intro e2
      cases hh : handle_response wire <;>
        simp [VerusClient.rpcCall, h2 h, hh]
    · intro v hv
      simp [VerusClient.rpcCall, h2 h, hv]

/-- Claim C2, witness: for error payload {"code": -1, "message": "bad"} the
call fails with that payload; for wire {"result": 5, "error": null} no
RpcError is raised and the scalar 5 is returned. -/
theorem C2_witness :
    ((defaultClient.rpcCall "getinfo" []
        (Json.obj [("result", Json.null),
          ("error", Json.obj [("code", Json.num (-1)),
            ("message", Json.str "bad")]),
          ("id", Json.str "x")])).2 =
      .error (.rpc ⟨Json.obj [("code", Json.num (-1)),
        ("message", Json.str "bad")]⟩)) ∧
    (∀ e2, (defaultClient.rpcCall "getinfo" []
        (Json.obj [("result", Json.num 5), ("error", Json.null),
          ("id", Json.str "x")])).2 ≠ .error (.rpc e2)) ∧
    ((defaultClient.rpcCall "getinfo" []
        (Json.obj [("result", Json.num 5), ("error", Json.null),
          ("id", Json.str "x")])).2 = .ok (.raw (Json.num 5))) :=
  ⟨(C2_error_handling _ _ _ _).1 _ rfl (fun hcon => Json.noConfusion hcon),
   ((C2_error_handling defaultClient "getinfo" []
      (Json.obj [("result", Json.num 5), ("error", Json.null),
        ("id", Json.str "x")])).2 (Or.inl rfl)).1,
   ((C2_error_handling defaultClient "getinfo" []
      (Json.obj [("result", Json.num 5), ("error", Json.null),
        ("id", Json.str "x")])).2 (Or.inl rfl)).2 _ rfl⟩

/-- Claim C3: construction fails with the configuration ValueError for any
network whose lower-cased form is neither "mainnet" nor "testnet" (so no
client instance is produced), and succeeds for the two recognized values in
any letter case. -/
theorem C3_network_validation (host network u p : String) :
    (pyLower network ≠ "mainnet" → pyLower network ≠ "testnet" →
        VerusClient.init host network u p =
          .error (.valueError "Network must be 'mainnet' or 'testnet'")) ∧
    (pyLower network = "mainnet" ∨ pyLower network = "testnet" →
        ∃ c, VerusClient.init host network u p = .ok c) := by
  constructor
  · intro h1 h2
    simp [VerusClient.init, h1, h2]
  · rintro (h | h)
    · refine ⟨⟨host, "mainnet", u, p, 27486, "vrsc",
        "http://" ++ host ++ ":" ++ toString (27486 : Nat) ++ "/"⟩, ?_⟩
      simp [VerusClient.init, h]
    · have hm : pyLower network ≠ "mainnet" := by rw [h]; decide
      refine ⟨⟨host, "testnet", u, p, 18843, "vrsctest",
        "http://" ++ host ++ ":" ++ toString (18843 : Nat) ++ "/"⟩, ?_⟩
      simp [VerusClient.init, hm, h]

/-- Claim C3, witness: "Regtest" is rejected with the ValueError; "TESTNET"
(upper case) is accepted. -/
theorem C3_witness :
    (pyLower "Regtest" ≠ "mainnet") ∧ (pyLower "Regtest" ≠ "testnet") ∧
    (VerusClient.init "127.0.0.1" "Regtest" "u" "p" =
      .error (.valueError "Network must be 'mainnet' or 'testnet'")) ∧
    (pyLower "TESTNET" = "testnet") ∧
    (∃ c, VerusClient.init "127.0.0.1" "TESTNET" "u" "p" = .ok c) :=
  ⟨by decide, by decide,
   (C3_network_validation _ _ _ _).1 (by decide) (by decide),
   by decide,
   (C3_network_validation _ _ _ _).2 (Or.inr (by decide))⟩

/-- Claim C4: normalization of any non-object JSON value (scalar, array, or
null) returns the value unchanged with no wrapping, and is idempotent on
such already-normalized values. -/
theorem C4_non_obj_passthrough (res : Json) (h : res.isObj = false) :
    normalizeResult res = .ok (.raw res) ∧
    ∀ r, normalizeResult res = .ok (.raw r) →
      normalizeResult r = .ok (.raw r) := by
  have h1 : normalizeResult res = .ok (.raw res) := by
    cases res <;> simp_all [normalizeResult, Json.isObj]
  refine ⟨h1, fun r hr => ?_⟩
  rw [h1] at hr
  injection hr with h2
  injection h2 with h3
  rw [← h3]
  exact h1

/-- Claim C4, witness: normalizing the scalar 42, null, and the array
["x", "y"] is the identity. -/
theorem C4_witness :
    ((Json.num 42).isObj = false ∧
      (normalizeResult (Json.num 42) = .ok (.raw (Json.num 42)) ∧
        ∀ r, normalizeResult (Json.num 42) = .ok (.raw r) →
          normalizeResult r = .ok (.raw r))) ∧
    (Json.null.isObj = false ∧
      normalizeResult Json.null = .ok (.raw Json.null)) ∧
    ((Json.arr [Json.str "x", Json.str "y"]).isObj = false ∧
      normalizeResult (Json.arr [Json.str "x", Json.str "y"]) =
        .ok (.raw (Json.arr [Json.str "x", Json.str "y"]))) :=
  ⟨⟨rfl, C4_non_obj_passthrough (Json.num 42) rfl⟩,
   ⟨rfl, (C4_non_obj_passthrough Json.null rfl).1⟩,
   ⟨rfl, (C4_non_obj_passthrough
      (Json.arr [Json.str "x", Json.str "y"]) rfl).1⟩⟩

/-- Claim C5: "mainnet" resolves port 27486 and native currency "vrsc";
"testnet" resolves port 18843 and "vrsctest"; in both cases the base URL is
exactly "http://" ++ host ++ ":" ++ port ++ "/", fixed at construction. -/
theorem C5_network_parameters (host u p : String) :
    (∃ c, VerusClient.init host "mainnet" u p = .ok c ∧ c.port = 27486 ∧
        c.native_currency = "vrsc" ∧
        c.url = "http://" ++ host ++ ":" ++ toString c.port ++ "/") ∧
    (∃ c, VerusClient.init host "testnet" u p = .ok c ∧ c.port = 18843 ∧
        c.native_currency = "vrsctest" ∧
        c.url = "http://" ++ host ++ ":" ++ toString c.port ++ "/") :=
  ⟨⟨_, rfl, rfl, rfl, rfl⟩, ⟨_, rfl, rfl, rfl, rfl⟩⟩

/-! ## Claims C6-C10 -/

/-- Claim C6: every call POSTs to the configured base URL with header
content-type: text/plain and basic authentication from the configured
credentials, and the body is exactly the JSON object
{"jsonrpc": "1.0", "id": "python-client", "method": m, "params": ps};
the id string "python-client" is the same on every call. -/
theorem C6_request_format (c : VerusClient) (method : String)
    (params : List Json) :
    (c.rpc_request_send method params).url = c.url ∧
    (c.rpc_request_send method params).auth_user = c.rpc_user ∧
    (c.rpc_request_send method params).auth_password = c.rpc_password ∧
    (c.rpc_request_send method params).headers =
      [("content-type", "text/plain")] ∧
    (c.rpc_request_send method params).body =
      Json.obj [("jsonrpc", Json.str "1.0"),
        ("id", Json.str "python-client"), ("method", Json.str method),
        ("params", Json.arr params)] ∧
    ∀ (method2 : String) (params2 : List Json),
      (c.rpc_request_send method params).body.objGet "id" =
          some (Json.str "python-client") ∧
        (c.rpc_request_send method2 params2).body.objGet "id" =
          some (Json.str "python-client") :=
  ⟨rfl, rfl, rfl, rfl, rfl, fun _ _ => ⟨rfl, rfl⟩⟩

/-- Claim C7: the truncation defect.  getimports with both optional heights
supplied nevertheless issues the request with params = [currency] — not the
documented [currency, heightstart, heightend] — and getexports always
raises NameError (its body references the undefined name `currency`; its
parameter is spelled `curency`), so neither catalogue entry passes the
documented parameter list through. -/
theorem C7_truncated_params (c : VerusClient)
    (wire currency hs he : Json) :
    ((c.getimports wire currency (some hs) (some he)).1.body.objGet
        "params" = some (Json.arr [currency])) ∧
    ((c.getimports wire currency (some hs) (some he)).1.body.objGet
        "params" ≠ some (Json.arr [currency, hs, he])) ∧
    (c.getexports wire currency (some hs) (some he) =
      .error (.nameError "currency")) := by
  refine ⟨rfl, ?_, rfl⟩
  intro hcon
  have h2 : some (Json.arr [currency]) =
      some (Json.arr [currency, hs, he]) := hcon
  simp at h2

/-- Claim C8: calling getbestblockhash issues method "getbestblockhash"
with params = [], and on daemon reply
{"result": "000abc", "error": null, "id": "x"} returns the scalar string
"000abc" unwrapped. -/
theorem C8_getbestblockhash (c : VerusClient) :
    ((c.getbestblockhash (Json.obj [("result", Json.str "000abc"),
        ("error", Json.null), ("id", Json.str "x")])).1.body.objGet
      "method" = some (Json.str "getbestblockhash")) ∧
    ((c.getbestblockhash (Json.obj [("result", Json.str "000abc"),
        ("error", Json.null), ("id", Json.str "x")])).1.body.objGet
      "params" = some (Json.arr [])) ∧
    ((c.getbestblockhash (Json.obj [("result", Json.str "000abc"),
        ("error", Json.null), ("id", Json.str "x")])).2 =
      .ok (.raw (Json.str "000abc"))) :=
  ⟨rfl, rfl, rfl⟩

/-- Claim C9: getblock with ("000abc", 2) issues params = ["000abc", 2];
with the verbosity argument omitted it defaults to 1, issuing
params = [h, 1]. -/
theorem C9_getblock_params (c : VerusClient) (wire h : Json) :
    ((c.getblock wire (Json.str "000abc") (Json.num 2)).1.body.objGet
      "params" = some (Json.arr [Json.str "000abc", Json.num 2])) ∧
    ((c.getblock wire h).1.body.objGet "params" =
      some (Json.arr [h, Json.num 1])) :=
  ⟨rfl, rfl⟩

/-- Claim C10, counterexample: the claim as stated quantifies over every
result object containing a "response" key, but for
{"self": 0, "response": 7} the `VerusResponseData(**res)` call raises
TypeError, so no normalized record exists at all. -/
theorem C10_counterexample :
    (alistGet [("self", Json.num 0), ("response", Json.num 7)] "response" =
      some (Json.num 7)) ∧
    (normalizeResult (.obj [("self", Json.num 0),
        ("response", Json.num 7)]) =
      .error (.typeError
        "__init__() got multiple values for argument 'self'")) :=
  ⟨rfl, rfl⟩

/-- Claim C10, amended: when the wire result object contains a key
"response" (and no key "self", so that normalization succeeds), the
normalized record's "response" attribute is overwritten to hold the entire
original mapping — not the daemon-supplied value of that key — while that
value remains reachable through the original mapping. -/
theorem C10_response_key_overwritten (kvs : List (String × Json))
    (v : Json) (h : alistGet kvs "response" = some v)
    (hself : "self" ∉ kvs.map Prod.fst) :
    ∃ d, normalizeResult (.obj kvs) = .ok (.data d) ∧
      alistGet d.attrs "response" = some (Json.obj kvs) ∧
      alistGet d.attrs "response" ≠ some v ∧
      (Json.obj kvs).objGet "response" = some v := by
  refine ⟨⟨setAttr (setAttr kvs "response" Json.null) "response"
      (Json.obj kvs)⟩, by
    simp [normalizeResult, VerusResponseData.init, hself],
    alistGet_setAttr_self _ _ _, ?_, h⟩
  rw [show (VerusResponseData.mk (setAttr (setAttr kvs "response"
    Json.null) "response" (Json.obj kvs))).attrs = setAttr (setAttr kvs
    "response" Json.null) "response" (Json.obj kvs) from rfl]
  rw [alistGet_setAttr_self]
  intro hcon
  have hv : Json.obj kvs = v := Option.some.inj hcon
  have hlt := sizeOf_alistGet kvs "response" v h
  rw [← hv] at hlt
  simp only [Json.obj.sizeOf_spec] at hlt
  omega

/-- Claim C10, witness: for result {"response": 7} the record's "response"
attribute equals the whole mapping {"response": 7}, not 7, while 7 is still
reachable through the original mapping. -/
theorem C10_witness :
    (alistGet [("response", Json.num 7)] "response" = some (Json.num 7)) ∧
    ("self" ∉ ([("response", Json.num 7)] : List (String × Json)).map
      Prod.fst) ∧
    (∃ d, normalizeResult (.obj [("response", Json.num 7)]) =
        .ok (.data d) ∧
      alistGet d.attrs "response" =
        some (Json.obj [("response", Json.num 7)]) ∧
      alistGet d.attrs "response" ≠ some (Json.num 7) ∧
      (Json.obj [("response", Json.num 7)]).objGet "response" =
        some (Json.num 7)) :=
  ⟨rfl, by decide, C10_response_key_overwritten _ _ rfl (by decide)⟩

end PyVerus
